import Mathlib

/-!
# Verification of the Tekisho backend orchestration layer

Shallow embedding of `src/backend/server.py`: the room-name allocator,
the chat persistence endpoints (`/save_chat`, `/save-conversation`),
the chat retrieval endpoint (`/get_chats`), the entity-extraction parse
step of `/extract_client_info`, and the synchronous asyncio bridge used
by `/save-conversation`.

Python/JSON values are modelled by `PyValue`; external collaborators
(the Supabase storage client, the OpenAI completion service, and the
stdlib `json.loads` / `int` primitives) enter the model as explicit
parameters or as `Except Unit` outcomes, where `.error ()` stands for a
raised exception.
-/

namespace Tekisho

/-- A Python/JSON value, as produced by `request.get_json()` or
`json.loads`.  Dictionaries are association lists with string keys
(first binding wins on lookup, matching unique-key JSON objects). -/
inductive PyValue where
  | str (s : String)
  | int (n : Int)
  | bool (b : Bool)
  | none
  | list (xs : List PyValue)
  | dict (kvs : List (String × PyValue))
deriving Repr

/-- Python `d.get(k, default)` on a dict modelled as an association list. -/
def dictGet (kvs : List (String × PyValue)) (k : String) (d : PyValue) : PyValue :=
  match kvs.find? (fun kv => kv.1 == k) with
  | some kv => kv.2
  | Option.none => d

/-- Python `d.get(k)` (no default: absent key gives `None`, modelled `none`). -/
def dictGetOpt (kvs : List (String × PyValue)) (k : String) : Option PyValue :=
  (kvs.find? (fun kv => kv.1 == k)).map (fun kv => kv.2)

/-- Python `k in d` for a dict. -/
def dictHas (kvs : List (String × PyValue)) (k : String) : Bool :=
  kvs.any (fun kv => kv.1 == k)

/-- Python truthiness of a value (`if not x`). -/
def pyTruthy : PyValue → Bool
  | .str s => !s.isEmpty
  | .int n => n != 0
  | .bool b => b
  | .none => false
  | .list xs => !xs.isEmpty
  | .dict kvs => !kvs.isEmpty

/-- Python `len(x)`: defined on sized values, raises `TypeError`
(modelled `.error ()`) on the rest. -/
def pyLen : PyValue → Except Unit Nat
  | .str s => .ok s.length
  | .list xs => .ok xs.length
  | .dict kvs => .ok kvs.length
  | _ => .error ()

/-- HTTP responses produced by the endpoints.  `err s` is an error body
paired with status code `s`; the success constructors carry the fields
the code puts in the 200 body (all of them have `"success": True`). -/
inductive Resp where
  | err (status : Nat)
  | saveChatOk (recordId : Option PyValue) (messageCount : Nat)
  | getChatsOk (chats : List PyValue) (count : Nat)
  | saveConvOk (name company : PyValue) (messageCount : Nat) (recordId : Option PyValue)
deriving Repr

/-- HTTP status code of a response (Flask sends 200 for a bare `jsonify`). -/
def Resp.status : Resp → Nat
  | .err s => s
  | _ => 200

/-- Whether the response body carries `"success": True`. -/
def Resp.isSuccess : Resp → Bool
  | .err _ => false
  | _ => true

/-- The retry loop of `generate_room_name` (server.py lines 22-27), run
against the single registry snapshot `rooms` fetched during the call.
`suffixes` is the stream of `str(uuid.uuid4())[:8]` draws, modelled as
fuel: `none` means the loop consumed the whole stream without finding a
free candidate (in Python it would keep drawing forever). -/
def roomNameLoop (rooms : List String) : List String → Option String
  | [] => Option.none
  | s :: rest =>
      let name := "room-" ++ s
      if name ∈ rooms then roomNameLoop rooms rest else some name

/-- Function `generate_room_name` (server.py lines 22-27): builds a
candidate from the first random suffix, fetches the active-room snapshot,
and redraws while the candidate collides with the snapshot. -/
def generate_room_name (suffixes : List String) (rooms : List String) : Option String :=
  roomNameLoop rooms suffixes

/-- Parse step of `extract_client_info` (server.py lines 195-206).  The
argument is the outcome of `json.loads(result_text)` on the completion
response: `.error ()` when `json.loads` raised.  A parsed dict is read
with `.get(..., "Unknown")` per field; any other parsed value makes
`.get` raise `AttributeError`, which the bare `except` absorbs into the
both-`Unknown` fallback.  The function is total: no error ever reaches
the caller from this step. -/
def parse_llm_response (loads : Except Unit PyValue) : PyValue × PyValue :=
  match loads with
  | .ok (.dict kvs) =>
      (dictGet kvs "name" (.str "Unknown"), dictGet kvs "company" (.str "Unknown"))
  | _ => (.str "Unknown", .str "Unknown")

/-- Modelled from the spec: the legacy synchronous path (`/save-conversation`,
line 245) imports `extract_user_info_from_chat` from `llm_extractor`, a
module absent from the repository source.  Spec section 4.3 describes the
extractor as attempting "to parse the response strictly as `{name, company}`"
and, "on any parse failure (malformed JSON, missing fields, non-JSON text)",
returning both fields as `Unknown`.  Formalised over the same `json.loads`
outcome as `parse_llm_response` so the two can be compared pointwise. -/
def extract_user_info_from_chat (loads : Except Unit PyValue) : PyValue × PyValue :=
  match loads with
  | .ok (.dict kvs) =>
      match dictGetOpt kvs "name", dictGetOpt kvs "company" with
      | some n, some c => (n, c)
      | _, _ => (.str "Unknown", .str "Unknown")
  | _ => (.str "Unknown", .str "Unknown")

/-- Helper for `pyInt`: a non-empty all-digit run parses to its value,
anything else raises. -/
def parseDigits (cs : List Char) : Except Unit Nat :=
  if cs.isEmpty then .error ()
  else if cs.all Char.isDigit then
    .ok (cs.foldl (fun acc c => acc * 10 + (c.toNat - 48)) 0)
  else .error ()

/-- Surrounding-whitespace strip, as Python `int()` applies to its
string argument. -/
def stripWs (cs : List Char) : List Char :=
  ((cs.dropWhile Char.isWhitespace).reverse.dropWhile Char.isWhitespace).reverse

/-- Python `int(s)` on a decimal string: strips surrounding whitespace,
accepts an optional sign followed by digits, raises `ValueError`
(`.error ()`) otherwise.  (CPython extras such as underscore grouping are
not modelled; the claims only rely on plain numerals succeeding and
non-numeric text failing.) -/
def pyInt (s : String) : Except Unit Int :=
  match stripWs s.toList with
  | '+' :: rest => (parseDigits rest).map Int.ofNat
  | '-' :: rest => (parseDigits rest).map (fun n => -(Int.ofNat n))
  | cs => (parseDigits cs).map Int.ofNat

/-- The limit value `int(request.args.get("limit", 50))` computes in
`get_chats` (line 122): the default 50 when the parameter is absent,
otherwise the Python `int` conversion of the raw string. -/
def limitValue (limitRaw : Option String) : Except Unit Int :=
  match limitRaw with
  | Option.none => .ok 50
  | some s => pyInt s

/-- GET `/get_chats` (server.py lines 108-139).  `limitRaw` is the raw
`limit` query parameter; `storage` is the outcome of
`supabase_client.get_chat_history` (`.error ()` = it raised).  The `name`
and `company_name` filters are forwarded to storage unchanged and touch
no control flow, so they are omitted.  Returns the response paired with
the limit actually handed to storage (`none` when storage was never
called).  Every exception is absorbed by the endpoint's catch-all
handler into a 500. -/
def get_chats (limitRaw : Option String) (storage : Except Unit (List PyValue)) :
    Resp × Option Int :=
  match limitValue limitRaw with
  | .error _ => (.err 500, Option.none)
  | .ok limit =>
      match storage with
      | .error _ => (.err 500, some limit)
      | .ok chats => (.getChatsOk chats chats.length, some limit)

/-- POST `/save_chat` (server.py lines 53-106).  `data` is
`request.get_json()` (`none` = no JSON body; the body is modelled as a
dict, the only shape the handler's `.get` calls support).  `storage` is
the outcome of `supabase_client.save_chat_history` (`.error ()` = it
raised).  Returns the response paired with the number of storage-write
invocations made. -/
def save_chat (data : Option (List (String × PyValue)))
    (storage : Except Unit (List (String × PyValue))) : Resp × Nat :=
  match data with
  | Option.none => (.err 400, 0)
  | some d =>
      if d.isEmpty then (.err 400, 0)
      else
        let chat_history := dictGet d "chat_history" (.list [])
        if !pyTruthy chat_history then (.err 400, 0)
        else
          match pyLen chat_history with
          | .error _ => (.err 500, 0)
          | .ok n =>
              match storage with
              | .error _ => (.err 500, 1)
              | .ok result =>
                  if dictHas result "error" then (.err 500, 1)
                  else (.saveChatOk (dictGetOpt result "id") n, 1)

/-- State of the calling thread's asyncio machinery when
`/save-conversation` starts its synchronous bridge (lines 259-304):
`asyncio.get_event_loop()` raises `RuntimeError` (`noLoop`), returns a
closed loop (`closedLoop`), an open idle loop (`idle`), or the loop
currently running on this thread (`running`). -/
inductive LoopState where
  | noLoop
  | closedLoop
  | idle
  | running
deriving Repr, DecidableEq

/-- Observable outcome of one bridge execution: the value or exception
handed back to the endpoint, how many times the storage coroutine
`supabase_client.save_chat_history` was driven, and how many event loops
and worker executors this call created and released before returning. -/
structure BridgeResult where
  outcome : Except Unit (List (String × PyValue))
  invocations : Nat
  loopsCreated : Nat
  loopsClosed : Nat
  executorsCreated : Nat
  executorsClosed : Nat
deriving Repr

/-- The `except Exception as loop_error` fallback (lines 293-304): a fresh
loop is created and drives a second storage invocation; `new_loop.close()`
runs only after a successful `run_until_complete` — when the coroutine
raises, the close line is skipped and the exception escapes to the
endpoint's outer handler. -/
def bridgeFallback (op : Nat → Except Unit (List (String × PyValue)))
    (created closed execC execCl : Nat) : BridgeResult :=
  match op 1 with
  | .ok r => ⟨.ok r, 2, created + 1, closed + 1, execC, execCl⟩
  | .error e => ⟨.error e, 2, created + 1, closed, execC, execCl⟩

/-- The synchronous persistence bridge of POST `/save-conversation`
(lines 259-304).  `op i` is the outcome of the i-th invocation of
`supabase_client.save_chat_history` (`.error ()` = the coroutine raised).
Branches of the source, in order: the inner `try` obtains the current
loop, replacing a missing or closed one by `asyncio.new_event_loop()`
(installed via `set_event_loop`, never closed); a running loop sends the
coroutine to `asyncio.run` inside a `ThreadPoolExecutor` (the executor's
`with` block releases it, and `asyncio.run` creates and, in a `finally`,
closes its own private loop); otherwise `loop.run_until_complete` drives
the coroutine on the obtained loop (which it does not close).  Any
exception out of all that — including the storage coroutine's own —
lands in `bridgeFallback`. -/
def run_blocking (st : LoopState)
    (op : Nat → Except Unit (List (String × PyValue))) : BridgeResult :=
  match st with
  | .running =>
      match op 0 with
      | .ok r => ⟨.ok r, 1, 1, 1, 1, 1⟩
      | .error _ => bridgeFallback op 1 1 1 1
  | .noLoop | .closedLoop =>
      match op 0 with
      | .ok r => ⟨.ok r, 1, 1, 0, 0, 0⟩
      | .error _ => bridgeFallback op 1 0 0 0
  | .idle =>
      match op 0 with
      | .ok r => ⟨.ok r, 1, 0, 0, 0, 0⟩
      | .error _ => bridgeFallback op 0 0 0 0

/-- POST `/save-conversation` (server.py lines 225-320).  `data` is
`request.get_json()`; `userInfo` is the outcome of the (spec-modelled)
`llm_extractor.extract_user_info_from_chat` call (`.error ()` = it
raised, absorbed by the outer handler); `st` and `op` parameterise the
asyncio bridge.  Returns the response paired with the number of
storage-write invocations made.  Note the success path builds the 200
body straight from the bridge result without inspecting it for an
`"error"` key (`record_id` is `result.get('id') if result else None`). -/
def save_conversation (data : Option (List (String × PyValue)))
    (userInfo : Except Unit (List (String × PyValue)))
    (st : LoopState) (op : Nat → Except Unit (List (String × PyValue))) :
    Resp × Nat :=
  match data with
  | Option.none => (.err 400, 0)
  | some d =>
      if d.isEmpty then (.err 400, 0)
      else if !dictHas d "chat_history" then (.err 400, 0)
      else
        let chat_history := dictGet d "chat_history" .none
        if !pyTruthy chat_history then (.err 400, 0)
        else
          match pyLen chat_history with
          | .error _ => (.err 500, 0)
          | .ok n =>
              match userInfo with
              | .error _ => (.err 500, 0)
              | .ok info =>
                  let name := dictGet info "name" (.str "Unknown")
                  let company := dictGet info "company" (.str "Unknown")
                  let br := run_blocking st op
                  match br.outcome with
                  | .error _ => (.err 500, br.invocations)
                  | .ok result =>
                      let recordId :=
                        if result.isEmpty then Option.none
                        else dictGetOpt result "id"
                      (.saveConvOk name company n recordId, br.invocations)

/-- The `chat_history` value POST `/save_chat` works with:
`data.get("chat_history", [])` on the parsed body, an empty list when
there is no body at all. -/
def chatHistoryOf (data : Option (List (String × PyValue))) : PyValue :=
  match data with
  | Option.none => .list []
  | some d => dictGet d "chat_history" (.list [])

/-- The `chat_history` value POST `/save-conversation` works with:
`data['chat_history']` when the key is present, the (falsy) `None`
placeholder when the body or the key is missing. -/
def convHistoryOf (data : Option (List (String × PyValue))) : PyValue :=
  match data with
  | Option.none => .none
  | some d => if dictHas d "chat_history" then dictGet d "chat_history" .none else .none

/-! ## Theorems -/

/-- A successful keyed lookup determines `dictGet` for any default. -/
theorem dictGet_of_some (kvs : List (String × PyValue)) (k : String) (v d : PyValue)
    (h : dictGetOpt kvs k = some v) : dictGet kvs k d = v := by
  simp only [dictGetOpt, Option.map_eq_some'] at h
  obtain ⟨kv, hfind, hv⟩ := h
  simp [dictGet, hfind, hv]

/-- C6: every name returned by `generate_room_name` is absent from the
registry snapshot fetched during that call, whatever the snapshot and
whatever the sequence of random suffixes drawn. -/
theorem generate_room_name_fresh (suffixes rooms : List String) (name : String)
    (h : generate_room_name suffixes rooms = some name) : name ∉ rooms := by
  induction suffixes with
  | nil => exact absurd h (by simp [generate_room_name, roomNameLoop])
  | cons s rest ih =>
      simp only [generate_room_name, roomNameLoop] at h
      split at h
      · exact ih h
      · cases h
        assumption

/-- Witness for C6 at a concrete snapshot and suffix stream. -/
theorem generate_room_name_fresh_witness : "room-abcd1234" ∉ ["room-zzz"] :=
  generate_room_name_fresh ["abcd1234"] ["room-zzz"] "room-abcd1234" rfl

/-- C10: a `limit` query parameter that Python `int()` cannot convert makes
GET `/get_chats` answer 500 through the catch-all handler, with the storage
gateway never called — the conversion precedes every other step. -/
theorem get_chats_nonint_limit_500 (s : String) (storage : Except Unit (List PyValue))
    (h : pyInt s = Except.error ()) :
    get_chats (some s) storage = (Resp.err 500, Option.none) := by
  simp [get_chats, limitValue, h]

/-- Witness for C10 at the concrete non-numeric parameter `"abc"`. -/
theorem get_chats_nonint_limit_500_witness :
    get_chats (some "abc") (Except.ok []) = (Resp.err 500, Option.none) :=
  get_chats_nonint_limit_500 "abc" (Except.ok []) rfl

/-- C3 counterexample: with `limit=0` GET `/get_chats` answers 200 (not the
claimed 400 `ValidationError`) and hands the non-positive value 0 straight
to the storage gateway. -/
theorem get_chats_nonpositive_limit_accepted :
    (get_chats (some "0") (Except.ok [])).1.status = 200 ∧
    (get_chats (some "0") (Except.ok [])).2 = some 0 := ⟨rfl, rfl⟩

/-- C3 (amended): GET `/get_chats` applies no validation to `limit` at all —
no code path produces a 400, and every successfully converted value,
non-positive ones included, is passed unchanged to the storage gateway. -/
theorem get_chats_no_limit_validation (limitRaw : Option String)
    (storage : Except Unit (List PyValue)) :
    (get_chats limitRaw storage).1.status ≠ 400 ∧
    (∀ l, limitValue limitRaw = Except.ok l → (get_chats limitRaw storage).2 = some l) := by
  constructor
  · cases hl : limitValue limitRaw <;> cases storage <;>
      simp [get_chats, hl, Resp.status]
  · intro l hl
    cases storage <;> simp [get_chats, hl]

/-- Witness for C3's amended statement at `limit=0`. -/
theorem get_chats_no_limit_validation_witness :
    (get_chats (some "0") (Except.error ())).2 = some 0 :=
  (get_chats_no_limit_validation (some "0") (Except.error ())).2 0 rfl

/-- C4 counterexample: a completion response whose JSON object carries a
name field but no company field is not strictly parseable as an object
with both fields, yet the extractor keeps the found field and returns
the pair Alice/Unknown, not the claimed both-Unknown pair. -/
theorem parse_fallback_partial_object :
    parse_llm_response (Except.ok (PyValue.dict [("name", PyValue.str "Alice")])) ≠
      (PyValue.str "Unknown", PyValue.str "Unknown") := by
  simp [parse_llm_response, dictGet]

/-- C4 (amended): the parse step of `extract_client_info` is total — no
error from it ever reaches the caller — and falls back per field: any
response that is not a JSON object yields both fields `Unknown`, and in a
JSON object each absent field individually becomes `Unknown` (a field that
is present is kept even when the other is missing). -/
theorem parse_fallback_per_field (loads : Except Unit PyValue) :
    ((∀ kvs, loads ≠ Except.ok (PyValue.dict kvs)) →
        parse_llm_response loads = (PyValue.str "Unknown", PyValue.str "Unknown")) ∧
    (∀ kvs, loads = Except.ok (PyValue.dict kvs) →
        (dictGetOpt kvs "name" = Option.none →
            (parse_llm_response loads).1 = PyValue.str "Unknown") ∧
        (dictGetOpt kvs "company" = Option.none →
            (parse_llm_response loads).2 = PyValue.str "Unknown")) := by
  constructor
  · intro hnot
    cases loads with
    | error e => rfl
    | ok v =>
        cases v with
        | dict kvs => exact absurd rfl (hnot kvs)
        | str s => rfl
        | int n => rfl
        | bool b => rfl
        | none => rfl
        | list xs => rfl
  · intro kvs hk
    subst hk
    constructor
    · intro hnone
      have hf : kvs.find? (fun kv => kv.1 == "name") = Option.none := by
        simpa [dictGetOpt] using hnone
      simp [parse_llm_response, dictGet, hf]
    · intro hnone
      have hf : kvs.find? (fun kv => kv.1 == "company") = Option.none := by
        simpa [dictGetOpt] using hnone
      simp [parse_llm_response, dictGet, hf]

/-- Witness for C4's amended statement at a raising `json.loads`. -/
theorem parse_fallback_per_field_witness :
    parse_llm_response (Except.error ()) = (PyValue.str "Unknown", PyValue.str "Unknown") :=
  (parse_fallback_per_field (Except.error ())).1 (fun _ h => Except.noConfusion h)

/-- C2 counterexample: on a completion response whose JSON object carries
only a name field, the inline extractor of `/extract_client_info` keeps
the found name while the spec-modelled `llm_extractor` of
`/save-conversation` (strict two-field parse, both-Unknown fallback)
discards it, so the two call paths do not produce identical results. -/
theorem extractors_divergence :
    parse_llm_response (Except.ok (PyValue.dict [("name", PyValue.str "Alice")])) ≠
      extract_user_info_from_chat (Except.ok (PyValue.dict [("name", PyValue.str "Alice")])) := by
  simp [parse_llm_response, extract_user_info_from_chat, dictGet, dictGetOpt]

/-- C2 (amended): the two call paths use two separately implemented
extractors; they agree on every response that is not a JSON object and on
every JSON object carrying both fields, but they are not one shared
implementation and may diverge when exactly one field is missing. -/
theorem extractors_agreement (loads : Except Unit PyValue) :
    ((∀ kvs, loads ≠ Except.ok (PyValue.dict kvs)) →
        parse_llm_response loads = extract_user_info_from_chat loads) ∧
    (∀ kvs n c, loads = Except.ok (PyValue.dict kvs) →
        dictGetOpt kvs "name" = some n → dictGetOpt kvs "company" = some c →
        parse_llm_response loads = extract_user_info_from_chat loads) := by
  constructor
  · intro hnot
    cases loads with
    | error e => rfl
    | ok v =>
        cases v with
        | dict kvs => exact absurd rfl (hnot kvs)
        | str s => rfl
        | int n => rfl
        | bool b => rfl
        | none => rfl
        | list xs => rfl
  · intro kvs n c hk hn hc
    subst hk
    have h1 := dictGet_of_some kvs "name" n (PyValue.str "Unknown") hn
    have h2 := dictGet_of_some kvs "company" c (PyValue.str "Unknown") hc
    simp [parse_llm_response, extract_user_info_from_chat, hn, hc, h1, h2]

/-- Witness for C2's amended statement at a raising `json.loads`. -/
theorem extractors_agreement_witness :
    parse_llm_response (Except.error ()) = extract_user_info_from_chat (Except.error ()) :=
  (extractors_agreement (Except.error ())).1 (fun _ h => Except.noConfusion h)

/-- C1 counterexample: with an idle loop and a storage coroutine that
raises, the `except loop_error` fallback drives the coroutine a second
time — two invocations of the storage write in one endpoint call. -/
theorem run_blocking_double_invocation :
    (run_blocking LoopState.idle (fun _ => Except.error ())).invocations = 2 := rfl

/-- C1 (amended): the storage write is invoked exactly once whenever its
first invocation completes without raising; when that invocation raises,
the exception fallback invokes the write a second time, so a call makes
at most two invocations — never one per branch beyond that. -/
theorem run_blocking_invocation_bounds (st : LoopState)
    (op : Nat → Except Unit (List (String × PyValue))) :
    ((∃ r, op 0 = Except.ok r) → (run_blocking st op).invocations = 1) ∧
    (run_blocking st op).invocations ≤ 2 := by
  constructor
  · rintro ⟨r, hr⟩
    cases st <;> simp [run_blocking, hr]
  · cases st <;> cases h0 : op 0 <;> cases h1 : op 1 <;>
      simp [run_blocking, bridgeFallback, h0, h1]

/-- Witness for C1's amended statement at a succeeding first invocation. -/
theorem run_blocking_invocation_bounds_witness :
    (run_blocking LoopState.idle (fun _ => Except.ok [])).invocations = 1 :=
  (run_blocking_invocation_bounds LoopState.idle (fun _ => Except.ok [])).1 ⟨[], rfl⟩

/-- C8 counterexample: when no usable loop exists and the write succeeds
first try, the bridge creates one event loop and closes none of them
before returning — the loop installed by `set_event_loop` stays open. -/
theorem run_blocking_leaked_loop :
    (run_blocking LoopState.noLoop (fun _ => Except.ok [])).loopsCreated = 1 ∧
    (run_blocking LoopState.noLoop (fun _ => Except.ok [])).loopsClosed = 0 := ⟨rfl, rfl⟩

/-- C8 (amended): the worker executor is always released, but loops are
not: exactly one created loop stays open whenever the bridge had to
replace a missing or closed loop (it is installed as the thread's loop and
never closed), and one more stays open when both storage invocations raise
(the fallback's `new_loop.close()` is skipped on the exception path). -/
theorem run_blocking_resource_accounting (st : LoopState)
    (op : Nat → Except Unit (List (String × PyValue))) :
    (run_blocking st op).executorsClosed = (run_blocking st op).executorsCreated ∧
    (run_blocking st op).loopsCreated - (run_blocking st op).loopsClosed =
      ((if st = LoopState.noLoop ∨ st = LoopState.closedLoop then 1 else 0) +
        (if (op 0).isOk || (op 1).isOk then 0 else 1)) := by
  cases st <;> cases h0 : op 0 <;> cases h1 : op 1 <;>
    simp [run_blocking, bridgeFallback, Except.isOk, Except.toBool, h0, h1]

/-- C7 counterexample: a storage result dict that reports an error under
an `"error"` key still makes POST `/save-conversation` answer 200 with
`success=true` — the endpoint never inspects the result for an `"error"`
key the way `/save_chat` does. -/
theorem save_conversation_success_despite_error :
    ((save_conversation (some [("chat_history", PyValue.list [PyValue.str "hi"])])
        (Except.ok []) LoopState.idle
        (fun _ => Except.ok [("error", PyValue.str "db down")])).1.status = 200) ∧
    ((save_conversation (some [("chat_history", PyValue.list [PyValue.str "hi"])])
        (Except.ok []) LoopState.idle
        (fun _ => Except.ok [("error", PyValue.str "db down")])).1.isSuccess = true) :=
  ⟨rfl, rfl⟩

/-- C7 (amended): on a valid request, POST `/save-conversation` answers 500
only when the storage coroutine raises on both the main attempt and the
fallback; whenever the bridge yields a result — including one whose dict
reports a storage error — the endpoint answers with `success=true`, so
`success=true` does not certify an error-free persistence. -/
theorem save_conversation_error_reporting (d info : List (String × PyValue))
    (st : LoopState) (op : Nat → Except Unit (List (String × PyValue))) (n : Nat)
    (hne : d.isEmpty = false) (hhas : dictHas d "chat_history" = true)
    (htr : pyTruthy (dictGet d "chat_history" PyValue.none) = true)
    (hlen : pyLen (dictGet d "chat_history" PyValue.none) = Except.ok n) :
    (op 0 = Except.error () → op 1 = Except.error () →
        (save_conversation (some d) (Except.ok info) st op).1 = Resp.err 500) ∧
    (∀ result, (run_blocking st op).outcome = Except.ok result →
        (save_conversation (some d) (Except.ok info) st op).1.isSuccess = true) := by
  constructor
  · intro h0 h1
    cases st <;>
      simp [save_conversation, hne, hhas, htr, hlen, run_blocking, bridgeFallback, h0, h1]
  · intro result hres
    simp [save_conversation, hne, hhas, htr, hlen, hres, Resp.isSuccess]

/-- Witness for C7's amended statement: both invocations raising gives 500. -/
theorem save_conversation_error_reporting_witness :
    (save_conversation (some [("chat_history", PyValue.list [PyValue.str "hi"])])
        (Except.ok []) LoopState.idle (fun _ => Except.error ())).1 = Resp.err 500 :=
  (save_conversation_error_reporting [("chat_history", PyValue.list [PyValue.str "hi"])]
      [] LoopState.idle (fun _ => Except.error ()) 1 rfl rfl rfl rfl).1 rfl rfl

/-- A body whose `chat_history` entry is a non-empty list is itself a
non-empty dict. -/
theorem nonempty_of_history (d : List (String × PyValue)) (msgs : List PyValue)
    (hh : dictGet d "chat_history" (PyValue.list []) = PyValue.list msgs)
    (hmne : msgs ≠ []) : d.isEmpty = false := by
  cases d with
  | nil =>
      exfalso
      apply hmne
      have h : PyValue.list [] = PyValue.list msgs := by simpa [dictGet] using hh
      cases h
      rfl
  | cons kv rest => rfl

/-- C5: POST `/save_chat` returns `success=true` with `message_count` equal
to the submitted history's length when the storage write succeeds without
reporting an error; answers 400 whenever the submitted history is empty or
missing; and answers 500 when the storage write raises or reports an error
in its result. -/
theorem save_chat_contract (data : Option (List (String × PyValue)))
    (storage : Except Unit (List (String × PyValue))) :
    (∀ d msgs result, data = some d →
        dictGet d "chat_history" (PyValue.list []) = PyValue.list msgs → msgs ≠ [] →
        storage = Except.ok result → dictHas result "error" = false →
        save_chat data storage =
          (Resp.saveChatOk (dictGetOpt result "id") msgs.length, 1)) ∧
    (pyTruthy (chatHistoryOf data) = false → (save_chat data storage).1 = Resp.err 400) ∧
    (∀ d msgs, data = some d →
        dictGet d "chat_history" (PyValue.list []) = PyValue.list msgs → msgs ≠ [] →
        (storage = Except.error () ∨
          ∃ result, storage = Except.ok result ∧ dictHas result "error" = true) →
        (save_chat data storage).1 = Resp.err 500) := by
  refine ⟨?_, ?_, ?_⟩
  · intro d msgs result hd hh hmne hs herr
    subst hd; subst hs
    have hdne := nonempty_of_history d msgs hh hmne
    cases msgs with
    | nil => exact absurd rfl hmne
    | cons m ms => simp [save_chat, hdne, hh, pyTruthy, pyLen, herr]
  · intro hf
    cases data with
    | none => rfl
    | some d =>
        by_cases hde : d.isEmpty
        · simp [save_chat, hde]
        · have hf' : pyTruthy (dictGet d "chat_history" (PyValue.list [])) = false := by
            simpa [chatHistoryOf] using hf
          simp [save_chat, hde, hf']
  · intro d msgs hd hh hmne hs
    subst hd
    have hdne := nonempty_of_history d msgs hh hmne
    cases msgs with
    | nil => exact absurd rfl hmne
    | cons m ms =>
        rcases hs with hs | ⟨result, hs, herr⟩
        · subst hs; simp [save_chat, hdne, hh, pyTruthy, pyLen]
        · subst hs; simp [save_chat, hdne, hh, pyTruthy, pyLen, herr]

/-- Witness for C5 at a one-message history with a succeeding write. -/
theorem save_chat_contract_witness :
    save_chat (some [("chat_history", PyValue.list [PyValue.str "m"])])
        (Except.ok [("id", PyValue.int 7)]) =
      (Resp.saveChatOk (some (PyValue.int 7)) 1, 1) :=
  (save_chat_contract (some [("chat_history", PyValue.list [PyValue.str "m"])])
      (Except.ok [("id", PyValue.int 7)])).1
    [("chat_history", PyValue.list [PyValue.str "m"])] [PyValue.str "m"]
    [("id", PyValue.int 7)] rfl rfl (by simp) rfl rfl

/-- C9: on both record-writing endpoints the storage write is reached only
when the submitted `chat_history` is non-empty (truthy), and an empty or
missing history always produces a 400 with zero write invocations. -/
theorem no_write_without_history (data : Option (List (String × PyValue)))
    (storage : Except Unit (List (String × PyValue)))
    (userInfo : Except Unit (List (String × PyValue)))
    (st : LoopState) (op : Nat → Except Unit (List (String × PyValue))) :
    ((save_chat data storage).2 ≠ 0 → pyTruthy (chatHistoryOf data) = true) ∧
    (pyTruthy (chatHistoryOf data) = false → save_chat data storage = (Resp.err 400, 0)) ∧
    ((save_conversation data userInfo st op).2 ≠ 0 → pyTruthy (convHistoryOf data) = true) ∧
    (pyTruthy (convHistoryOf data) = false →
        save_conversation data userInfo st op = (Resp.err 400, 0)) := by
  have h2 : pyTruthy (chatHistoryOf data) = false →
      save_chat data storage = (Resp.err 400, 0) := by
    intro hf
    cases data with
    | none => rfl
    | some d =>
        by_cases hde : d.isEmpty
        · simp [save_chat, hde]
        · have hf' : pyTruthy (dictGet d "chat_history" (PyValue.list [])) = false := by
            simpa [chatHistoryOf] using hf
          simp [save_chat, hde, hf']
  have h4 : pyTruthy (convHistoryOf data) = false →
      save_conversation data userInfo st op = (Resp.err 400, 0) := by
    intro hf
    cases data with
    | none => rfl
    | some d =>
        by_cases hde : d.isEmpty
        · simp [save_conversation, hde]
        · by_cases hhas : dictHas d "chat_history"
          · have hf' : pyTruthy (dictGet d "chat_history" PyValue.none) = false := by
              simpa [convHistoryOf, hhas] using hf
            simp [save_conversation, hde, hhas, hf']
          · simp [save_conversation, hde, hhas]
  refine ⟨?_, h2, ?_, h4⟩
  · intro hw
    cases hv : pyTruthy (chatHistoryOf data) with
    | true => rfl
    | false => exact absurd (congrArg Prod.snd (h2 hv)) hw
  · intro hw
    cases hv : pyTruthy (convHistoryOf data) with
    | true => rfl
    | false => exact absurd (congrArg Prod.snd (h4 hv)) hw

/-- Witness for C9 at a missing request body. -/
theorem no_write_without_history_witness :
    save_chat Option.none (Except.ok []) = (Resp.err 400, 0) ∧
    save_conversation Option.none (Except.ok []) LoopState.idle (fun _ => Except.ok []) =
      (Resp.err 400, 0) :=
  ⟨(no_write_without_history Option.none (Except.ok []) (Except.ok []) LoopState.idle
      (fun _ => Except.ok [])).2.1 rfl,
   (no_write_without_history Option.none (Except.ok []) (Except.ok []) LoopState.idle
      (fun _ => Except.ok [])).2.2.2 rfl⟩

end Tekisho
